import Mathlib

/-!
Shallow embedding of the `nara` repository:
  * `src/stage.py` — random `.nara` template generator;
  * `src/scripts/composite_spritesheet.py` — sprite-sheet compositor.

Randomness model: Python's global `random` source is embedded as an explicit
stream of natural numbers (`RandS := Nat → Nat`); every random primitive
consumes the head of the stream and shifts it.  `random.randint a b`
becomes `a + head % (b - a + 1)` (always lands in `[a, b]`, and every value
of `[a, b]` is reachable, exactly as in Python).  `random.choice l` picks
`l[head % l.length]`.  A float-threshold test `random.random() > p` (with
`0 < p < 1`) is a Boolean decision whose two outcomes are both reachable;
it is embedded as the parity of the consumed head.  All claims quantify
over every outcome of the randomness stream, so this embedding covers
exactly the set of documents the Python code can produce.
-/

/-- The randomness source: an infinite stream of naturals. -/
def RandS : Type := Nat → Nat

/-- Drop the head of the stream. -/
def shift (r : RandS) : RandS := fun n => r (n + 1)

/-- `random.randint a b` for a natural range `a ≤ b`: uniform on `[a, b]`. -/
def randintN (a b : Nat) (r : RandS) : Nat × RandS :=
  (a + r 0 % (b - a + 1), shift r)

/-- `random.randint a b` on an integer range (used for label y-offsets). -/
def randintI (a b : Int) (r : RandS) : Int × RandS :=
  (a + (r 0 : Int) % (b - a + 1), shift r)

/-- A Boolean drawn from the stream; embeds `random.random() > p` for a
fixed threshold `0 < p < 1` (both outcomes reachable). -/
def randB (r : RandS) : Bool × RandS :=
  (r 0 % 2 == 1, shift r)

/-- `random.choice l` for a non-empty list (`d` is a fallback default that
is never used when `l ≠ []`). -/
def choiceD {α : Type} (d : α) (l : List α) (r : RandS) : α × RandS :=
  (l.getD (r 0 % l.length) d, shift r)

/-- `random.sample l k`: `k` draws without replacement, by position
(pick an index among the remaining elements, remove it, repeat). -/
def sample : List String → Nat → RandS → List String × RandS
  | _, 0, r => ([], r)
  | l, k + 1, r =>
    if l.length = 0 then ([], r)
    else
      let i := r 0 % l.length
      let x := l.getD i ""
      let rest := sample (l.eraseIdx i) k (shift r)
      (x :: rest.1, rest.2)

/-! ## Word banks and layout presets (stage.py lines 13-53) -/

def ADJECTIVES : List String :=
  ["quantum", "neural", "cosmic", "synthetic", "ethereal", "digital",
   "organic", "crystalline", "ambient", "fractal", "temporal", "spatial",
   "kinetic", "radiant", "sublime", "arcane", "prismatic", "infinite"]

def NOUNS : List String :=
  ["matrix", "topology", "manifold", "field", "lattice", "network",
   "system", "architecture", "framework", "structure", "membrane", "grid",
   "interface", "protocol", "substrate", "apparatus", "mechanism", "circuit"]

def VERBS : List String :=
  ["transform", "synthesize", "modulate", "cascade", "oscillate", "resonate",
   "propagate", "converge", "emerge", "iterate", "evolve", "compose",
   "distribute", "aggregate", "encode", "decode", "transmit", "reflect"]

def TECH_WORDS : List String :=
  ["algorithm", "protocol", "bandwidth", "latency", "throughput", "entropy",
   "coherence", "interference", "resonance", "coupling", "gradient", "flux",
   "tensor", "vector", "scalar", "eigen", "fourier", "laplace", "kernel"]

structure SpacingCfg where
  titleAboveImage : Nat
  captionBelowImage : Nat
  sidebarFromImage : Nat
  footerBelowCaption : Nat
deriving Repr, DecidableEq

structure LayoutPreset where
  name : String
  imageWidth : Nat
  spacing : SpacingCfg
deriving Repr, DecidableEq

def posterPreset : LayoutPreset :=
  ⟨"poster", 40, ⟨2, 2, 4, 3⟩⟩

def cardPreset : LayoutPreset :=
  ⟨"card", 30, ⟨1, 1, 2, 2⟩⟩

def bannerPreset : LayoutPreset :=
  ⟨"banner", 80, ⟨1, 1, 3, 2⟩⟩

def postcardPreset : LayoutPreset :=
  ⟨"postcard", 35, ⟨2, 2, 3, 2⟩⟩

def LAYOUT_PRESETS : List LayoutPreset :=
  [posterPreset, cardPreset, bannerPreset, postcardPreset]

def IMAGE_URLS : List String :=
  ["https://picsum.photos/400/300",
   "https://picsum.photos/500/400",
   "https://picsum.photos/600/400",
   "https://source.unsplash.com/random/400x300",
   "https://source.unsplash.com/random/500x400"]

/-! ## Region data model

A region is a Python dict with keys among `id`, `type`, `position`,
`content`, `layout`, `source`, `components`; absent keys are `none`/`[]`. -/

structure Position where
  x : String
  y : String
deriving Repr, DecidableEq

structure Content where
  static : Option String := none
  transform : Option String := none
  generator : Option String := none
  wordCount : Option Nat := none
  pfx : Option String := none
  sfx : Option String := none
  repeatChar : Option String := none
  count : Option Nat := none
deriving Repr, DecidableEq

structure RegionLayout where
  alignment : Option String := none
  width : Option Nat := none
  wrap : Option Bool := none
deriving Repr, DecidableEq

inductive Region : Type where
  | mk : String → String → Position → Option Content → Option RegionLayout →
         Option String → List Region → Region
deriving Repr

def Region.id : Region → String
  | .mk i _ _ _ _ _ _ => i

def Region.rtype : Region → String
  | .mk _ t _ _ _ _ _ => t

def Region.pos : Region → Position
  | .mk _ _ p _ _ _ _ => p

def Region.content : Region → Option Content
  | .mk _ _ _ c _ _ _ => c

def Region.rlayout : Region → Option RegionLayout
  | .mk _ _ _ _ l _ _ => l

def Region.source : Region → Option String
  | .mk _ _ _ _ _ s _ => s

def Region.components : Region → List Region
  | .mk _ _ _ _ _ _ cs => cs

structure TextGenCfg where
  name : String
  dictionary : List String
deriving Repr, DecidableEq

structure StorageCfg where
  text : String
  images : String
  ephemeral : Bool
  clearKey : String
deriving Repr, DecidableEq

/-- The `.nara` template document envelope (stage.py lines 255-286).
`parameters.imageUrl.default` is the only random part of `parameters`,
kept as `imageUrlDefault`; the rest of `parameters` is constant. -/
structure Template where
  version : String
  ttype : String
  name : String
  description : String
  imageUrlDefault : String
  layoutImageWidth : Nat
  layoutSpacing : SpacingCfg
  regions : List Region
  textGenerator : TextGenCfg
  storage : StorageCfg
deriving Repr

/-! ## stage.py generators -/

/-- `random_title`'s word loop: each word is a coin flip between an
adjective and a noun (stage.py lines 58-63). -/
def random_title_words : Nat → RandS → List String × RandS
  | 0, r => ([], r)
  | k + 1, r =>
    let b := choiceD true [true, false] r
    let w := if b.1 then choiceD "quantum" ADJECTIVES b.2
             else choiceD "matrix" NOUNS b.2
    let rest := random_title_words k w.2
    (w.1 :: rest.1, rest.2)

/-- stage.py lines 56-64. -/
def random_title (word_count : Nat) (r : RandS) : String × RandS :=
  let ws := random_title_words word_count r
  ((String.intercalate " " ws.1).toUpper, ws.2)

def all_words : List String := ADJECTIVES ++ NOUNS ++ VERBS ++ TECH_WORDS

/-- stage.py lines 67-70: `random.sample(all_words, min(size, len(all_words)))`. -/
def random_dictionary (size : Nat) (r : RandS) : List String × RandS :=
  sample all_words (min size all_words.length) r

/-- stage.py lines 73-90. -/
def generate_title_region (layout : LayoutPreset) (r : RandS) : Region × RandS :=
  let wc := randintN 1 3 r
  let t := random_title wc.1 wc.2
  let tr := randB t.2
  let al := choiceD "center" ["center", "left"] tr.2
  (Region.mk "title" "text"
    ⟨"startX", "startY - " ++ toString layout.spacing.titleAboveImage⟩
    (some { static := some t.1,
            transform := if tr.1 then some "uppercase" else none })
    (some { alignment := some al.1, width := some layout.imageWidth })
    none [], al.2)

/-- stage.py lines 93-103 (no randomness). -/
def generate_image_region : Region :=
  Region.mk "main-image" "image" ⟨"startX", "startY"⟩ none none
    (some "imageUrl") []

/-- stage.py lines 106-123. -/
def generate_caption_region (layout : LayoutPreset) (r : RandS) : Region × RandS :=
  let wc := randintN 8 20 r
  (Region.mk "caption" "text"
    ⟨"startX", "startY + imageHeight + " ++ toString layout.spacing.captionBelowImage⟩
    (some { generator := some "bogus", wordCount := some wc.1 })
    (some { wrap := some true, width := some layout.imageWidth })
    none [], wc.2)

/-- stage.py lines 126-158. -/
def generate_sidebar_region (layout : LayoutPreset) (r : RandS) : Region × RandS :=
  let sw := randintN 25 35 r
  let hdr := choiceD "NOTES" ["NOTES", "META", "INFO", "DATA", "CONTEXT"] sw.2
  let bwc := randintN 15 40 hdr.2
  (Region.mk "sidebar" "composite"
    ⟨"startX + imageWidth + " ++ toString layout.spacing.sidebarFromImage, "startY"⟩
    none none none
    [Region.mk "sidebar-header" "text" ⟨"sidebarX", "sidebarStartY"⟩
       (some { static := some hdr.1 }) none none [],
     Region.mk "sidebar-divider" "text" ⟨"sidebarX", "sidebarStartY + 1"⟩
       (some { repeatChar := some "─", count := some sw.1 }) none none [],
     Region.mk "sidebar-body" "text" ⟨"sidebarX", "sidebarStartY + 2"⟩
       (some { generator := some "bogus", wordCount := some bwc.1 })
       (some { wrap := some true, width := some sw.1 }) none []], bwc.2)

/-- stage.py lines 161-180. -/
def generate_footer_region (layout : LayoutPreset) (r : RandS) : Region × RandS :=
  let wc := randintN 1 3 r
  (Region.mk "footer" "text"
    ⟨"startX", "startY + imageHeight + " ++
       toString (layout.spacing.captionBelowImage +
                 layout.spacing.footerBelowCaption + 2)⟩
    (some { generator := some "bogus", wordCount := some wc.1,
            pfx := some "— ", sfx := some " —" })
    (some { alignment := some "center", width := some layout.imageWidth })
    none [], wc.2)

/-- stage.py lines 183-198. -/
def generate_label_region (r : RandS) : Region × RandS :=
  let ox := randintN 0 20 r
  let oy := randintI (-10) 30 ox.2
  let sfx := randintN 1000 9999 oy.2
  let tt := random_title 1 sfx.2
  (Region.mk ("label-" ++ toString sfx.1) "text"
    ⟨"startX + " ++ toString ox.1, "startY + " ++ toString oy.1⟩
    (some { static := some tt.1 }) none none [], tt.2)

/-- The `for _ in range(num_labels)` loop of stage.py lines 251-252. -/
def gen_labels : Nat → RandS → List Region × RandS
  | 0, r => ([], r)
  | k + 1, r =>
    let lb := generate_label_region r
    let rest := gen_labels k lb.2
    (lb.1 :: rest.1, rest.2)

/-- stage.py lines 211-212: random `"{adjective}-{noun}"` default name. -/
def resolve_name (name? : Option String) (r : RandS) : String × RandS :=
  match name? with
  | some n => (n, r)
  | none =>
    let a := choiceD "quantum" ADJECTIVES r
    let b := choiceD "matrix" NOUNS a.2
    (a.1 ++ "-" ++ b.1, b.2)

/-- stage.py lines 214-218: a `None` flag is resolved by a probability
threshold (`random.random() > 0.4` resp. `> 0.5`). -/
def resolve_flag (b? : Option Bool) (r : RandS) : Bool × RandS :=
  match b? with
  | some b => (b, r)
  | none => randB r

/-- stage.py lines 220-224: the number of floating labels. -/
def resolve_num_labels (lb? : Option Bool) (r : RandS) : Nat × RandS :=
  match lb? with
  | none => randintN 0 3 r
  | some b => if b then randintN 1 3 r else (0, r)

/-- stage.py lines 226-229: the layout selector.  A known name returns the
matching preset, an unknown name silently falls back to
`LAYOUT_PRESETS[0]`, no name picks one of the four at random. -/
def select_layout (lp? : Option String) (r : RandS) : LayoutPreset × RandS :=
  match lp? with
  | some p => ((LAYOUT_PRESETS.find? (fun l => l.name == p)).getD posterPreset, r)
  | none => choiceD posterPreset LAYOUT_PRESETS r

/-- The `if flag: regions.append(gen(...))` pattern of stage.py lines
238-248: run the generator and keep its region only when the flag holds. -/
def optRegion (b : Bool) (g : RandS → Region × RandS) (r : RandS) :
    Option Region × RandS :=
  if b then
    let x := g r
    (some x.1, x.2)
  else (none, r)

/-- stage.py lines 231-252: the `# Build regions` block.  Title and image
always; caption with probability 0.8 (`random.random() > 0.2`); sidebar
and footer per their resolved flags; then `num_labels` floating labels. -/
def build_regions (layout : LayoutPreset) (include_sidebar include_footer : Bool)
    (num_labels : Nat) (r : RandS) : List Region × RandS :=
  let t := generate_title_region layout r
  let cb := randB t.2
  let c := optRegion cb.1 (generate_caption_region layout) cb.2
  let s := optRegion include_sidebar (generate_sidebar_region layout) c.2
  let f := optRegion include_footer (generate_footer_region layout) s.2
  let ls := gen_labels num_labels f.2
  ([t.1, generate_image_region] ++ c.1.toList ++ s.1.toList ++ f.1.toList ++
   ls.1, ls.2)

/-- stage.py lines 201-288: `generate_nara_template`.  Mirrors the source
line by line; random draws occur in exactly the source's order. -/
def generate_nara_template (name? : Option String) (sb? ft? lb? : Option Bool)
    (lp? : Option String) (r : RandS) : Template × RandS :=
  let pn := resolve_name name? r
  let ps := resolve_flag sb? pn.2
  let pf := resolve_flag ft? ps.2
  let pl := resolve_num_labels lb? pf.2
  let pL := select_layout lp? pl.2
  let layout := pL.1
  let rg := build_regions layout ps.1 pf.1 pl.1 pL.2
  let regions := rg.1
  let iu := choiceD "https://picsum.photos/400/300" IMAGE_URLS rg.2
  let ds := randintN 15 25 iu.2
  let dict := random_dictionary ds.1 ds.2
  let st := choiceD "worldData" ["worldData", "lightModeData"] dict.2
  let se := choiceD true [true, false] st.2
  ({ version := "1.0.0", ttype := "stage", name := pn.1,
     description := "Procedurally generated " ++ layout.name ++ " template",
     imageUrlDefault := iu.1,
     layoutImageWidth := layout.imageWidth,
     layoutSpacing := layout.spacing,
     regions := regions,
     textGenerator := { name := "bogus", dictionary := dict.1 },
     storage := { text := st.1, images := "stagedImageData",
                  ephemeral := se.1, clearKey := "Escape" } }, se.2)

/-! ## CLI layer of stage.py (lines 291-367)

File writing is modelled as the pure list of `(filepath, document)` pairs
an invocation would write; directory creation and the actual I/O are out
of scope (spec §1). -/

/-- One entry written by `generate_batch`: stage.py lines 298-306.
The index `i` is 0-based in the loop, the filename suffix is `i+1`. -/
def batch_loop (output_dir : String) (start : Nat) :
    Nat → RandS → List (String × Template) × RandS
  | 0, r => ([], r)
  | k + 1, r =>
    let t := generate_nara_template none none none none none r
    let rest := batch_loop output_dir (start + 1) k t.2
    ((output_dir ++ "/" ++ t.1.name ++ "-" ++ toString (start + 1) ++ ".nara",
      t.1) :: rest.1, rest.2)

/-- stage.py lines 291-309: `generate_batch(count, output_dir)`. -/
def generate_batch (count : Nat) (output_dir : String) (r : RandS) :
    List (String × Template) × RandS :=
  batch_loop output_dir 0 count r

/-- Python truthiness of `args.name` in `if args.count == 1 and args.name:`
(stage.py line 347): `None` and `""` are falsy. -/
def name_truthy : Option String → Bool
  | none => false
  | some n => !(n == "")

/-- stage.py lines 345-367: the file-writing branch of `main` (the
`--stdout` branch writes no files).  Returns the `(filepath, document)`
pairs written. -/
def main_files (count : Nat) (name? : Option String) (output : String)
    (sb? ft? lb? : Option Bool) (lp? : Option String) (r : RandS) :
    List (String × Template) × RandS :=
  if count = 1 ∧ name_truthy name? = true then
    let t := generate_nara_template name? sb? ft? lb? lp? r
    ([(output ++ "/" ++ name?.getD "" ++ ".nara", t.1)], t.2)
  else
    generate_batch count output r

/-! ## composite_spritesheet.py

An image is its dimensions plus an RGBA pixel map.  Pixel resampling of
`Image.resize` is out of scope (spec §1 delegates image codec/resampling
to the external library); the geometry (canvas sizes, paste placement)
is embedded exactly. -/

structure Img where
  width : Nat
  height : Nat
  px : Nat → Nat → Nat × Nat × Nat × Nat

/-- A fully transparent RGBA pixel. -/
def transparentPx : Nat × Nat × Nat × Nat := (0, 0, 0, 0)

/-- `Image.new("RGBA", (w, h), (0, 0, 0, 0))`. -/
def imageNew (w h : Nat) : Img :=
  ⟨w, h, fun _ _ => transparentPx⟩

/-- `base.paste(top, (ox, oy))`: replaces the rectangle of `base` covered
by `top`; pixels outside keep their value. -/
def pasteImg (base top : Img) (ox oy : Nat) : Img :=
  { base with px := fun x y =>
      if ox ≤ x ∧ x < ox + top.width ∧ oy ≤ y ∧ y < oy + top.height then
        top.px (x - ox) (y - oy)
      else base.px x y }

/-- `img.resize(new_size, LANCZOS)`: the output dimensions are exact; the
resampled pixel content is out of scope and kept as the source map. -/
def resizeImg (img : Img) (nw nh : Nat) : Img :=
  ⟨nw, nh, img.px⟩

/-- composite_spritesheet.py lines 46-65: `load_and_resize`.  The float
scale `min(tw/iw, th/ih)` and the truncations `int(iw*scale)`,
`int(ih*scale)` are embedded with exact rational arithmetic
(`tw/iw ≤ th/ih  ↔  tw*ih ≤ th*iw`, truncation is `Nat` division). -/
def load_and_resize (img : Img) (tw th : Nat) : Img :=
  let canvas := imageNew tw th
  let ns : Nat × Nat :=
    if tw * img.height ≤ th * img.width then
      (tw, img.height * tw / img.width)
    else
      (img.width * th / img.height, th)
  let resized := resizeImg img ns.1 ns.2
  pasteImg canvas resized ((tw - ns.1) / 2) ((th - ns.2) / 2)

def DIRECTIONS : List String :=
  ["south", "south-west", "west", "north-west",
   "north", "north-east", "east", "south-east"]

def WALK_FRAME_SIZE : Nat × Nat := (32, 40)

def IDLE_FRAME_SIZE : Nat × Nat := (32, 40)

def WALK_FRAMES_PER_DIR : Nat := 8

def IDLE_FRAMES_PER_DIR : Nat := 8

/-- The frame chosen for one direction (composite_spritesheet.py lines
76-83): a missing input file is replaced by a fully transparent frame of
the target size.  `files` maps a direction name to the image stored at
`{SPRITES_DIR}/{prefix}_{direction}.png`, `none` when the file is absent. -/
def frameFor (files : String → Option Img) (fw fh : Nat) (d : String) : Img :=
  match files d with
  | none => imageNew fw fh
  | some img => load_and_resize img fw fh

/-- composite_spritesheet.py lines 67-94: `create_spritesheet`.  Total:
every input configuration (including all files missing) produces a sheet. -/
def create_spritesheet (files : String → Option Img)
    (frame_size : Nat × Nat) (frames_per_dir : Nat) : Img :=
  let width := frame_size.1 * frames_per_dir
  let height := frame_size.2 * 8
  let sheet := imageNew width height
  DIRECTIONS.enum.foldl
    (fun sh rowdir =>
      let frame := frameFor files frame_size.1 frame_size.2 rowdir.2
      (List.range frames_per_dir).foldl
        (fun s col => pasteImg s frame (col * frame_size.1)
          (rowdir.1 * frame_size.2)) sh)
    sheet

/-- composite_spritesheet.py line 102: the walk sheet. -/
def walk_sheet (files : String → Option Img) : Img :=
  create_spritesheet files WALK_FRAME_SIZE WALK_FRAMES_PER_DIR

/-- composite_spritesheet.py line 105: the idle sheet. -/
def idle_sheet (files : String → Option Img) : Img :=
  create_spritesheet files IDLE_FRAME_SIZE IDLE_FRAMES_PER_DIR

/-- `s` begins with the six characters `label-` (used to recognise the
floating-label region ids generated by stage.py line 189). -/
def labelish (s : String) : Bool := s.data.take 6 == "label-".data

/-! ## Basic lemmas about the randomness primitives -/

theorem randintN_lower (a b : Nat) (r : RandS) : a ≤ (randintN a b r).1 :=
  Nat.le_add_right a _

theorem randintN_upper (a b : Nat) (r : RandS) (h : a ≤ b) :
    (randintN a b r).1 ≤ b := by
  have hp : 0 < b - a + 1 := Nat.succ_pos _
  have hm := Nat.mod_lt (r 0) hp
  unfold randintN
  omega

theorem choiceD_mem {α : Type} (d : α) (l : List α) (r : RandS) (h : l ≠ []) :
    (choiceD d l r).1 ∈ l := by
  unfold choiceD
  have hl : 0 < l.length := List.length_pos.2 h
  have hm : r 0 % l.length < l.length := Nat.mod_lt _ hl
  rw [List.getD_eq_getElem _ _ hm]
  exact List.getElem_mem hm

/-! ## String helpers: ids that start with `label-` -/

theorem string_data_append (a b : String) : (a ++ b).data = a.data ++ b.data :=
  rfl

theorem labelish_label (t : String) : labelish ("label-" ++ t) = true := by
  have h6 : "label-".data.length = 6 := by decide
  unfold labelish
  rw [string_data_append, List.take_left' h6]
  simp

theorem ne_of_labelish {a b : String} (ha : labelish a = true)
    (hb : labelish b = false) : a ≠ b := by
  intro h
  rw [h, hb] at ha
  cases ha

/-! ## Field lemmas for the region generators -/

theorem title_region_id (L : LayoutPreset) (r : RandS) :
    (generate_title_region L r).1.id = "title" := rfl

theorem title_region_rtype (L : LayoutPreset) (r : RandS) :
    (generate_title_region L r).1.rtype = "text" := rfl

theorem image_region_id : generate_image_region.id = "main-image" := rfl

theorem image_region_rtype : generate_image_region.rtype = "image" := rfl

theorem caption_region_id (L : LayoutPreset) (r : RandS) :
    (generate_caption_region L r).1.id = "caption" := rfl

theorem caption_region_rtype (L : LayoutPreset) (r : RandS) :
    (generate_caption_region L r).1.rtype = "text" := rfl

theorem sidebar_region_id (L : LayoutPreset) (r : RandS) :
    (generate_sidebar_region L r).1.id = "sidebar" := rfl

theorem sidebar_region_rtype (L : LayoutPreset) (r : RandS) :
    (generate_sidebar_region L r).1.rtype = "composite" := rfl

theorem sidebar_region_components_length (L : LayoutPreset) (r : RandS) :
    (generate_sidebar_region L r).1.components.length = 3 := rfl

theorem footer_region_id (L : LayoutPreset) (r : RandS) :
    (generate_footer_region L r).1.id = "footer" := rfl

theorem footer_region_rtype (L : LayoutPreset) (r : RandS) :
    (generate_footer_region L r).1.rtype = "text" := rfl

theorem label_region_id (r : RandS) :
    (generate_label_region r).1.id = "label-" ++ toString (1000 + r 2 % 9000) :=
  rfl

theorem label_region_rtype (r : RandS) :
    (generate_label_region r).1.rtype = "text" := rfl

theorem label_region_labelish (r : RandS) :
    labelish (generate_label_region r).1.id = true := by
  rw [label_region_id]
  exact labelish_label _

/-! ## Lemmas about the label loop -/

theorem gen_labels_length (n : Nat) (r : RandS) :
    ((gen_labels n r).1).length = n := by
  induction n generalizing r with
  | zero => rfl
  | succ k ih => simp [gen_labels, ih]

theorem gen_labels_mem (n : Nat) (r : RandS) :
    ∀ x ∈ (gen_labels n r).1, ∃ r', x = (generate_label_region r').1 := by
  induction n generalizing r with
  | zero => intro x hx; cases hx
  | succ k ih =>
    intro x hx
    rcases List.mem_cons.1 hx with h | h
    · exact ⟨r, h⟩
    · exact ih _ x h

theorem gen_labels_labelish (n : Nat) (r : RandS) :
    ∀ x ∈ (gen_labels n r).1, labelish x.id = true := by
  intro x hx
  obtain ⟨r', hr'⟩ := gen_labels_mem n r x hx
  rw [hr']
  exact label_region_labelish r'

theorem gen_labels_rtype (n : Nat) (r : RandS) :
    ∀ x ∈ (gen_labels n r).1, x.rtype = "text" := by
  intro x hx
  obtain ⟨r', hr'⟩ := gen_labels_mem n r x hx
  rw [hr']
  rfl

/-! ## Shape of the region list -/

theorem optRegion_fst_toList (b : Bool) (g : RandS → Region × RandS) (r : RandS) :
    (optRegion b g r).1.toList = if b then [(g r).1] else [] := by
  cases b <;> rfl

theorem optRegion_snd (b : Bool) (g : RandS → Region × RandS) (r : RandS) :
    (optRegion b g r).2 = if b then (g r).2 else r := by
  cases b <;> rfl

/-- The region list produced by the `# Build regions` block: title and
image first, then the optional caption, sidebar and footer, then the
labels — in exactly this order. -/
theorem build_regions_shape (L : LayoutPreset) (sb ft : Bool) (n : Nat)
    (r : RandS) :
    ∃ (rt rc rs rf rl : RandS) (cb : Bool),
      (build_regions L sb ft n r).1
        = [(generate_title_region L rt).1, generate_image_region]
          ++ (if cb then [(generate_caption_region L rc).1] else [])
          ++ (if sb then [(generate_sidebar_region L rs).1] else [])
          ++ (if ft then [(generate_footer_region L rf).1] else [])
          ++ (gen_labels n rl).1 := by
  refine ⟨r, (randB (generate_title_region L r).2).2,
    (optRegion (randB (generate_title_region L r).2).1
      (generate_caption_region L) (randB (generate_title_region L r).2).2).2,
    (optRegion sb (generate_sidebar_region L)
      (optRegion (randB (generate_title_region L r).2).1
        (generate_caption_region L)
        (randB (generate_title_region L r).2).2).2).2,
    (optRegion ft (generate_footer_region L)
      (optRegion sb (generate_sidebar_region L)
        (optRegion (randB (generate_title_region L r).2).1
          (generate_caption_region L)
          (randB (generate_title_region L r).2).2).2).2).2,
    (randB (generate_title_region L r).2).1, ?_⟩
  simp only [build_regions, optRegion_fst_toList, optRegion_snd]

/-! ## Flag resolution lemmas -/

theorem resolve_flag_some (b : Bool) (r : RandS) :
    (resolve_flag (some b) r).1 = b := rfl

theorem resolve_num_labels_le (lb? : Option Bool) (r : RandS) :
    (resolve_num_labels lb? r).1 ≤ 3 := by
  match lb? with
  | none => exact randintN_upper 0 3 r (by omega)
  | some true => exact randintN_upper 1 3 r (by omega)
  | some false => exact Nat.zero_le 3

theorem resolve_num_labels_pos (r : RandS) :
    1 ≤ (resolve_num_labels (some true) r).1 :=
  randintN_lower 1 3 r

theorem resolve_num_labels_false (r : RandS) :
    (resolve_num_labels (some false) r).1 = 0 := rfl

/-- Every value in `[0, 3]` (resp. `[1, 3]` when labels are forced on) is
reachable as a label count. -/
theorem resolve_num_labels_reach (n : Nat) (h : n ≤ 3) :
    ∃ r : RandS, (resolve_num_labels none r).1 = n :=
  ⟨fun _ => n, by unfold resolve_num_labels randintN; simp; omega⟩

theorem select_layout_some (p : String) (r : RandS) :
    (select_layout (some p) r).1
      = (LAYOUT_PRESETS.find? (fun l => l.name == p)).getD posterPreset := rfl

theorem select_layout_none_mem (r : RandS) :
    (select_layout none r).1 ∈ LAYOUT_PRESETS :=
  choiceD_mem _ _ _ (by decide)

/-- The top-level decomposition used by the invariant claims: the regions
of any generated document come from `build_regions` under resolved flags,
and the resolved flags honour explicitly-set inputs. -/
theorem template_regions_from_build (name? : Option String)
    (sb? ft? lb? : Option Bool) (lp? : Option String) (r : RandS) :
    ∃ (L : LayoutPreset) (sb ft : Bool) (n : Nat) (rX : RandS),
      (generate_nara_template name? sb? ft? lb? lp? r).1.regions
        = (build_regions L sb ft n rX).1
      ∧ (sb? = some true → sb = true) ∧ (sb? = some false → sb = false)
      ∧ (ft? = some true → ft = true) ∧ (ft? = some false → ft = false)
      ∧ n ≤ 3 ∧ (lb? = some true → 1 ≤ n) ∧ (lb? = some false → n = 0)
      ∧ (lp? = none → L ∈ LAYOUT_PRESETS)
      ∧ (∀ p, lp? = some p →
          L = (LAYOUT_PRESETS.find? (fun l => l.name == p)).getD posterPreset) := by
  refine ⟨(select_layout lp?
      (resolve_num_labels lb?
        (resolve_flag ft? (resolve_flag sb? (resolve_name name? r).2).2).2).2).1,
    (resolve_flag sb? (resolve_name name? r).2).1,
    (resolve_flag ft? (resolve_flag sb? (resolve_name name? r).2).2).1,
    (resolve_num_labels lb?
      (resolve_flag ft? (resolve_flag sb? (resolve_name name? r).2).2).2).1,
    (select_layout lp?
      (resolve_num_labels lb?
        (resolve_flag ft? (resolve_flag sb? (resolve_name name? r).2).2).2).2).2,
    rfl, ?_, ?_, ?_, ?_, resolve_num_labels_le _ _, ?_, ?_, ?_, ?_⟩
  · intro h; rw [h]; rfl
  · intro h; rw [h]; rfl
  · intro h; rw [h]; rfl
  · intro h; rw [h]; rfl
  · intro h; rw [h]; exact resolve_num_labels_pos _
  · intro h; rw [h]; rfl
  · intro h; rw [h]; exact select_layout_none_mem _
  · intro p h; rw [h]; rfl

/-! ## Claim C1 -/

theorem countP_ite_single (p : Region → Bool) (b : Bool) (x : Region)
    (hx : p x = false) : (if b then [x] else []).countP p = 0 := by
  cases b <;> simp [hx]

theorem countP_labels_zero (p : Region → Bool) (n : Nat) (rl : RandS)
    (h : ∀ x ∈ (gen_labels n rl).1, p x = false) :
    ((gen_labels n rl).1).countP p = 0 :=
  List.countP_eq_zero.2 (by intro a ha; simp [h a ha])

/-- C1: every generated document's region list is exactly a title region
and an image region, then at most one caption, at most one sidebar, at
most one footer, then zero to three label regions, in this order; the
document has exactly one region with id `title` and exactly one region of
type `image`. -/
theorem C1_region_structure (name? : Option String) (sb? ft? lb? : Option Bool)
    (lp? : Option String) (r : RandS) :
    ∃ (t i : Region) (c s f ls : List Region),
      (generate_nara_template name? sb? ft? lb? lp? r).1.regions
        = [t, i] ++ c ++ s ++ f ++ ls
      ∧ t.id = "title" ∧ i.rtype = "image"
      ∧ c.length ≤ 1 ∧ (∀ x ∈ c, x.id = "caption")
      ∧ s.length ≤ 1 ∧ (∀ x ∈ s, x.id = "sidebar")
      ∧ f.length ≤ 1 ∧ (∀ x ∈ f, x.id = "footer")
      ∧ ls.length ≤ 3 ∧ (∀ x ∈ ls, labelish x.id = true)
      ∧ (generate_nara_template name? sb? ft? lb? lp? r).1.regions.countP
          (fun x => x.id == "title") = 1
      ∧ (generate_nara_template name? sb? ft? lb? lp? r).1.regions.countP
          (fun x => x.rtype == "image") = 1 := by
  obtain ⟨L, sb, ft, n, rX, hreg, _, _, _, _, hn3, _, _, _, _⟩ :=
    template_regions_from_build name? sb? ft? lb? lp? r
  obtain ⟨rt, rc, rs, rf, rl, cb, hshape⟩ := build_regions_shape L sb ft n rX
  rw [hshape] at hreg
  refine ⟨(generate_title_region L rt).1, generate_image_region,
    (if cb then [(generate_caption_region L rc).1] else []),
    (if sb then [(generate_sidebar_region L rs).1] else []),
    (if ft then [(generate_footer_region L rf).1] else []),
    (gen_labels n rl).1, hreg,
    title_region_id L rt, image_region_rtype, ?_, ?_, ?_, ?_, ?_, ?_,
    ?_, gen_labels_labelish n rl, ?_, ?_⟩
  · cases cb <;> simp
  · intro x hx
    cases cb <;> simp at hx
    rw [hx]; exact caption_region_id L rc
  · cases sb <;> simp
  · intro x hx
    cases sb <;> simp at hx
    rw [hx]; exact sidebar_region_id L rs
  · cases ft <;> simp
  · intro x hx
    cases ft <;> simp at hx
    rw [hx]; exact footer_region_id L rf
  · rw [gen_labels_length]; exact hn3
  · rw [hreg]
    simp only [List.countP_append]
    rw [countP_ite_single _ cb _ (by rw [caption_region_id]; decide),
      countP_ite_single _ sb _ (by rw [sidebar_region_id]; decide),
      countP_ite_single _ ft _ (by rw [footer_region_id]; decide),
      countP_labels_zero _ n rl (by
        intro x hx
        exact beq_eq_false_iff_ne.2
          (ne_of_labelish (gen_labels_labelish n rl x hx) (by decide)))]
    simp [List.countP_cons, title_region_id, image_region_id]
  · rw [hreg]
    simp only [List.countP_append]
    rw [countP_ite_single _ cb _ (by rw [caption_region_rtype]; decide),
      countP_ite_single _ sb _ (by rw [sidebar_region_rtype]; decide),
      countP_ite_single _ ft _ (by rw [footer_region_rtype]; decide),
      countP_labels_zero _ n rl (by
        intro x hx
        rw [gen_labels_rtype n rl x hx]; decide)]
    simp [List.countP_cons, title_region_rtype, image_region_rtype]

/-! ## Claim C5 -/

theorem filter_ite_single (p : Region → Bool) (b : Bool) (x : Region)
    (hx : p x = false) : (if b then [x] else []).filter p = [] := by
  cases b <;> simp [hx]

theorem filter_labels_nil (p : Region → Bool) (n : Nat) (rl : RandS)
    (h : ∀ x ∈ (gen_labels n rl).1, p x = false) :
    ((gen_labels n rl).1).filter p = [] :=
  List.filter_eq_nil_iff.2 (by intro a ha; simp [h a ha])

theorem sidebar_region_component_ids (L : LayoutPreset) (r : RandS) :
    (generate_sidebar_region L r).1.components.map Region.id
      = ["sidebar-header", "sidebar-divider", "sidebar-body"] := rfl

/-- C5: with `include_sidebar=True` the document contains exactly one
region of type `composite` with id `sidebar`, and its child list is
exactly a header, a divider and a body (3 children). -/
theorem C5_sidebar_forced (name? : Option String) (ft? lb? : Option Bool)
    (lp? : Option String) (r : RandS) :
    ∃ sbr : Region,
      (generate_nara_template name? (some true) ft? lb? lp? r).1.regions.filter
        (fun x => x.rtype == "composite" && x.id == "sidebar") = [sbr]
      ∧ sbr.rtype = "composite" ∧ sbr.id = "sidebar"
      ∧ sbr.components.length = 3
      ∧ sbr.components.map Region.id
          = ["sidebar-header", "sidebar-divider", "sidebar-body"] := by
  obtain ⟨L, sb, ft, n, rX, hreg, hsb, _, _, _, _, _, _, _, _⟩ :=
    template_regions_from_build name? (some true) ft? lb? lp? r
  obtain ⟨rt, rc, rs, rf, rl, cb, hshape⟩ := build_regions_shape L sb ft n rX
  refine ⟨(generate_sidebar_region L rs).1, ?_, sidebar_region_rtype L rs,
    sidebar_region_id L rs, sidebar_region_components_length L rs,
    sidebar_region_component_ids L rs⟩
  rw [hreg, hshape, hsb rfl]
  simp only [List.filter_append]
  rw [filter_ite_single _ cb _ (by simp [caption_region_rtype]),
    filter_ite_single _ ft _ (by simp [footer_region_rtype]),
    filter_labels_nil _ n rl (by intro x hx; simp [gen_labels_rtype n rl x hx])]
  have h2 : List.filter (fun x => x.rtype == "composite" && x.id == "sidebar")
      [(generate_title_region L rt).1, generate_image_region] = [] := by
    simp [List.filter_cons, title_region_rtype, image_region_rtype]
  rw [h2]
  simp [List.filter_cons, sidebar_region_rtype, sidebar_region_id]

/-! ## Claims C6 and C9 -/

/-- C6: with `include_labels=False` the document has zero regions whose id
starts with `label-`. -/
theorem C6_no_labels (name? : Option String) (sb? ft? : Option Bool)
    (lp? : Option String) (r : RandS) :
    (generate_nara_template name? sb? ft? (some false) lp? r).1.regions.countP
      (fun x => labelish x.id) = 0 := by
  obtain ⟨L, sb, ft, n, rX, hreg, _, _, _, _, _, _, hn0, _, _⟩ :=
    template_regions_from_build name? sb? ft? (some false) lp? r
  obtain ⟨rt, rc, rs, rf, rl, cb, hshape⟩ := build_regions_shape L sb ft n rX
  rw [hreg, hshape]
  simp only [List.countP_append]
  rw [countP_ite_single _ cb _ (by rw [caption_region_id]; decide),
    countP_ite_single _ sb _ (by rw [sidebar_region_id]; decide),
    countP_ite_single _ ft _ (by rw [footer_region_id]; decide)]
  rw [hn0 rfl]
  simp [List.countP_cons, title_region_id, image_region_id, gen_labels]
  decide

/-- C9: with `include_labels=True` the document has between one and three
regions whose id starts with `label-`. -/
theorem C9_labels_forced (name? : Option String) (sb? ft? : Option Bool)
    (lp? : Option String) (r : RandS) :
    1 ≤ (generate_nara_template name? sb? ft? (some true) lp? r).1.regions.countP
          (fun x => labelish x.id)
    ∧ (generate_nara_template name? sb? ft? (some true) lp? r).1.regions.countP
          (fun x => labelish x.id) ≤ 3 := by
  obtain ⟨L, sb, ft, n, rX, hreg, _, _, _, _, hn3, hn1, _, _, _⟩ :=
    template_regions_from_build name? sb? ft? (some true) lp? r
  obtain ⟨rt, rc, rs, rf, rl, cb, hshape⟩ := build_regions_shape L sb ft n rX
  rw [hreg, hshape]
  simp only [List.countP_append]
  rw [countP_ite_single _ cb _ (by rw [caption_region_id]; decide),
    countP_ite_single _ sb _ (by rw [sidebar_region_id]; decide),
    countP_ite_single _ ft _ (by rw [footer_region_id]; decide)]
  have hlab : List.countP (fun x => labelish x.id) (gen_labels n rl).1 = n := by
    rw [List.countP_eq_length.2 (by intro a ha; simp [gen_labels_labelish n rl a ha]),
      gen_labels_length]
  rw [hlab]
  have h2 : List.countP (fun x => labelish x.id)
      [(generate_title_region L rt).1, generate_image_region] = 0 := by
    simp [List.countP_cons, title_region_id, image_region_id]
    decide
  rw [h2]
  have hn := hn1 rfl
  omega

/-! ## Claim C7 -/

/-- C7: every generated sidebar draws a single width in `[25, 35]` used
both as the divider's repeat count and the body's wrap width; the body's
word count lies in `[15, 40]` and the header text is one of the 5 literal
labels. -/
theorem C7_sidebar_consistency (L : LayoutPreset) (r : RandS) :
    ∃ (w bwc : Nat) (hdr : String) (hd dv bd : Region),
      (generate_sidebar_region L r).1.components = [hd, dv, bd]
      ∧ 25 ≤ w ∧ w ≤ 35
      ∧ dv.content = some { repeatChar := some "─", count := some w }
      ∧ bd.rlayout = some { wrap := some true, width := some w }
      ∧ 15 ≤ bwc ∧ bwc ≤ 40
      ∧ bd.content = some { generator := some "bogus", wordCount := some bwc }
      ∧ hd.content = some { static := some hdr }
      ∧ hdr ∈ ["NOTES", "META", "INFO", "DATA", "CONTEXT"] := by
  refine ⟨(randintN 25 35 r).1,
    (randintN 15 40 (choiceD "NOTES" ["NOTES", "META", "INFO", "DATA", "CONTEXT"]
      (randintN 25 35 r).2).2).1,
    (choiceD "NOTES" ["NOTES", "META", "INFO", "DATA", "CONTEXT"]
      (randintN 25 35 r).2).1,
    _, _, _, rfl, randintN_lower 25 35 r, randintN_upper 25 35 r (by omega),
    rfl, rfl, randintN_lower 15 40 _, randintN_upper 15 40 _ (by omega),
    rfl, rfl, choiceD_mem _ _ _ (by decide)⟩

/-! ## Claim C3 -/
/-- C3: the layout selector returns the preset matching a known name
(`poster`, `card`, `banner`, `postcard`), silently falls back to the first
preset (`poster`) on any unknown name, and with no name picks one of the
four presets at random (membership, and every preset is reachable). -/
theorem C3_layout_selector (r : RandS) :
    (select_layout (some "poster") r).1 = posterPreset
    ∧ (select_layout (some "card") r).1 = cardPreset
    ∧ (select_layout (some "banner") r).1 = bannerPreset
    ∧ (select_layout (some "postcard") r).1 = postcardPreset
    ∧ (∀ s : String, s ∉ ["poster", "card", "banner", "postcard"] →
        (select_layout (some s) r).1 = posterPreset)
    ∧ (select_layout none r).1 ∈ LAYOUT_PRESETS
    ∧ (∀ L ∈ LAYOUT_PRESETS, ∃ r' : RandS, (select_layout none r').1 = L) := by
  refine ⟨rfl, rfl, rfl, rfl, ?_, select_layout_none_mem r, ?_⟩
  · intro s hs
    simp only [List.mem_cons, List.not_mem_nil, or_false, not_or] at hs
    obtain ⟨h1, h2, h3, h4⟩ := hs
    rw [select_layout_some, List.find?_eq_none.2, Option.getD_none]
    intro x hx
    simp only [LAYOUT_PRESETS, List.mem_cons, List.not_mem_nil, or_false] at hx
    rcases hx with h | h | h | h <;> subst h <;>
      simp only [posterPreset, cardPreset, bannerPreset, postcardPreset,
        beq_iff_eq] <;>
      intro hc
    · exact h1 hc.symm
    · exact h2 hc.symm
    · exact h3 hc.symm
    · exact h4 hc.symm
  · intro L hL
    simp only [LAYOUT_PRESETS, List.mem_cons, List.not_mem_nil, or_false] at hL
    rcases hL with h | h | h | h <;> subst h
    · exact ⟨fun _ => 0, rfl⟩
    · exact ⟨fun _ => 1, rfl⟩
    · exact ⟨fun _ => 2, rfl⟩
    · exact ⟨fun _ => 3, rfl⟩

/-- Witness for C3's unknown-preset fallback at a concrete input. -/
theorem C3_layout_selector_witness :
    (select_layout (some "zzz") (fun _ => 0)).1 = posterPreset :=
  (C3_layout_selector (fun _ => 0)).2.2.2.2.1 "zzz" (by decide)

/-! ## Claim C2 -/

theorem mem_ite_single {x y : Region} {b : Bool}
    (h : x ∈ if b then [y] else []) : x = y := by
  cases b
  · simp at h
  · simpa using h

/-- C2 counterexample: with labels forced on and a randomness stream that
draws the suffix 1000 for two labels, the document contains two regions
with id `label-1000`, so region ids are not always pairwise distinct. -/
theorem C2_counterexample :
    ¬ ((generate_nara_template (some "x") (some false) (some false)
        (some true) (some "poster")
        (fun n => if n = 0 then 1 else 0)).1.regions.map Region.id).Nodup := by
  decide

/-- C2 amended: the non-label region ids of a generated document are
pairwise distinct and none starts with `label-`, every remaining region id
starts with `label-`, and the whole id list is duplicate-free whenever the
label ids are (only label-label collisions are possible). -/
theorem C2_amended (name? : Option String) (sb? ft? lb? : Option Bool)
    (lp? : Option String) (r : RandS) :
    ∃ pre labels : List Region,
      (generate_nara_template name? sb? ft? lb? lp? r).1.regions = pre ++ labels
      ∧ (pre.map Region.id).Nodup
      ∧ (∀ x ∈ pre, labelish x.id = false)
      ∧ (∀ x ∈ labels, labelish x.id = true)
      ∧ ((labels.map Region.id).Nodup →
          ((generate_nara_template name? sb? ft? lb? lp? r).1.regions.map
            Region.id).Nodup) := by
  obtain ⟨L, sb, ft, n, rX, hreg, _, _, _, _, _, _, _, _, _⟩ :=
    template_regions_from_build name? sb? ft? lb? lp? r
  obtain ⟨rt, rc, rs, rf, rl, cb, hshape⟩ := build_regions_shape L sb ft n rX
  rw [hreg, hshape]
  have hpreLab : ∀ x ∈ [(generate_title_region L rt).1, generate_image_region]
      ++ (if cb then [(generate_caption_region L rc).1] else [])
      ++ (if sb then [(generate_sidebar_region L rs).1] else [])
      ++ (if ft then [(generate_footer_region L rf).1] else []),
      labelish x.id = false := by
    intro x hx
    simp only [List.mem_append] at hx
    rcases hx with ((hx | hx) | hx) | hx
    · rcases List.mem_cons.1 hx with h | h
      · rw [h, title_region_id]; decide
      · rw [List.mem_singleton.1 h, image_region_id]; decide
    · rw [mem_ite_single hx, caption_region_id]; decide
    · rw [mem_ite_single hx, sidebar_region_id]; decide
    · rw [mem_ite_single hx, footer_region_id]; decide
  have hpreN : (([(generate_title_region L rt).1, generate_image_region]
      ++ (if cb then [(generate_caption_region L rc).1] else [])
      ++ (if sb then [(generate_sidebar_region L rs).1] else [])
      ++ (if ft then [(generate_footer_region L rf).1] else [])).map
        Region.id).Nodup := by
    have hpre : ([(generate_title_region L rt).1, generate_image_region]
        ++ (if cb then [(generate_caption_region L rc).1] else [])
        ++ (if sb then [(generate_sidebar_region L rs).1] else [])
        ++ (if ft then [(generate_footer_region L rf).1] else [])).map Region.id
        = ["title", "main-image"]
          ++ (if cb then ["caption"] else [])
          ++ (if sb then ["sidebar"] else [])
          ++ (if ft then ["footer"] else []) := by
      cases cb <;> cases sb <;> cases ft <;>
        simp [title_region_id, image_region_id, caption_region_id,
          sidebar_region_id, footer_region_id]
    rw [hpre]
    cases cb <;> cases sb <;> cases ft <;> decide
  refine ⟨[(generate_title_region L rt).1, generate_image_region]
      ++ (if cb then [(generate_caption_region L rc).1] else [])
      ++ (if sb then [(generate_sidebar_region L rs).1] else [])
      ++ (if ft then [(generate_footer_region L rf).1] else []),
    (gen_labels n rl).1, by simp, hpreN, hpreLab, gen_labels_labelish n rl, ?_⟩
  intro hld
  rw [List.map_append, List.nodup_append]
  refine ⟨hpreN, hld, ?_⟩
  intro a ha hb
  obtain ⟨x, hxm, hxa⟩ := List.mem_map.1 ha
  obtain ⟨y, hym, hya⟩ := List.mem_map.1 hb
  have h1 := hpreLab x hxm
  have h2 := gen_labels_labelish n rl y hym
  rw [hxa] at h1
  rw [hya] at h2
  rw [h2] at h1
  cases h1

/-- Witness for C2's amended claim at a concrete input. -/
theorem C2_amended_witness :
    ∃ pre labels : List Region,
      (generate_nara_template (some "x") (some false) (some false) (some false)
        (some "poster") (fun _ => 0)).1.regions = pre ++ labels
      ∧ (pre.map Region.id).Nodup
      ∧ (∀ x ∈ pre, labelish x.id = false)
      ∧ (∀ x ∈ labels, labelish x.id = true)
      ∧ ((labels.map Region.id).Nodup →
          ((generate_nara_template (some "x") (some false) (some false)
            (some false) (some "poster") (fun _ => 0)).1.regions.map
              Region.id).Nodup) :=
  C2_amended (some "x") (some false) (some false) (some false) (some "poster")
    (fun _ => 0)

/-! ## Claim C10 -/

theorem perm_getD_cons_eraseIdx : ∀ (l : List String) (i : Nat), i < l.length →
    l.Perm (l.getD i "" :: l.eraseIdx i)
  | [], i, h => absurd h (by simp)
  | a :: t, 0, _ => by simp [List.eraseIdx]
  | a :: t, i + 1, h => by
    have h' : i < t.length := by simpa using h
    have ih := perm_getD_cons_eraseIdx t i h'
    simp only [List.getD_cons_succ, List.eraseIdx_cons_succ]
    exact List.Perm.trans (List.Perm.cons a ih)
      (List.Perm.swap (t.getD i "") a (t.eraseIdx i))

theorem sample_subperm : ∀ (k : Nat) (l : List String) (r : RandS),
    List.Subperm (sample l k r).1 l
  | 0, l, _ => by
    rw [sample]
    exact List.nil_subperm
  | k + 1, l, r => by
    rw [sample]
    split
    · exact List.nil_subperm
    · rename_i hne
      have hl : 0 < l.length := Nat.pos_of_ne_zero hne
      have hi : r 0 % l.length < l.length := Nat.mod_lt _ hl
      have ih := sample_subperm k (l.eraseIdx (r 0 % l.length)) (shift r)
      have hp := perm_getD_cons_eraseIdx l (r 0 % l.length) hi
      exact ((List.subperm_cons _).2 ih).trans hp.symm.subperm

theorem sample_length : ∀ (k : Nat) (l : List String) (r : RandS),
    k ≤ l.length → (sample l k r).1.length = k
  | 0, _, _, _ => rfl
  | k + 1, l, r, h => by
    rw [sample]
    have hne : ¬ l.length = 0 := by omega
    rw [if_neg hne]
    have hi : r 0 % l.length < l.length := Nat.mod_lt _ (by omega)
    have hlen : (l.eraseIdx (r 0 % l.length)).length = l.length - 1 := by
      rw [List.length_eraseIdx]
      simp [hi]
    simp only [List.length_cons]
    rw [sample_length k _ (shift r) (by omega)]

/-- The dictionary of a generated document is `random_dictionary` at a
size drawn in `[15, 25]`. -/
theorem template_dictionary_eq (name? : Option String) (sb? ft? lb? : Option Bool)
    (lp? : Option String) (r : RandS) :
    ∃ (sz : Nat) (rd : RandS),
      (generate_nara_template name? sb? ft? lb? lp? r).1.textGenerator.dictionary
        = (random_dictionary sz rd).1 ∧ 15 ≤ sz ∧ sz ≤ 25 := by
  refine ⟨_, _, rfl, ?_, ?_⟩
  · exact randintN_lower _ _ _
  · exact randintN_upper _ _ _ (by omega)

/-- C10 counterexample: a stream whose dictionary sample picks positions
31 and 55 of the concatenated word banks puts `protocol` twice into
`textGenerator.dictionary`, so its words are not always pairwise
distinct. -/
theorem C10_counterexample :
    ¬ ((generate_nara_template (some "x") (some false) (some false)
        (some false) (some "poster")
        (fun n => if n = 8 then 31 else
          if n = 9 then 54 else 0)).1.textGenerator.dictionary).Nodup := by
  decide

/-- C10 amended: `textGenerator.dictionary` has between 15 and 25
entries and is a sub-permutation of the concatenation of the four word
banks (drawn without replacement by position); since `protocol` occurs in
two banks, entries need not be pairwise distinct. -/
theorem C10_amended (name? : Option String) (sb? ft? lb? : Option Bool)
    (lp? : Option String) (r : RandS) :
    15 ≤ (generate_nara_template name? sb? ft? lb? lp?
            r).1.textGenerator.dictionary.length
    ∧ (generate_nara_template name? sb? ft? lb? lp?
        r).1.textGenerator.dictionary.length ≤ 25
    ∧ List.Subperm
        (generate_nara_template name? sb? ft? lb? lp?
          r).1.textGenerator.dictionary all_words := by
  obtain ⟨sz, rd, hd, h15, h25⟩ := template_dictionary_eq name? sb? ft? lb? lp? r
  rw [hd]
  have hlen : all_words.length = 73 := by decide
  have hmin : min sz all_words.length = sz := by rw [hlen]; omega
  unfold random_dictionary
  rw [hmin]
  have hsl := sample_length sz all_words rd (by omega)
  exact ⟨by omega, by omega, sample_subperm sz all_words rd⟩

/-! ## Claim C8 -/

theorem batch_loop_length (dir : String) : ∀ (k start : Nat) (r : RandS),
    (batch_loop dir start k r).1.length = k
  | 0, _, _ => rfl
  | k + 1, start, r => by
    simp only [batch_loop, List.length_cons]
    rw [batch_loop_length dir k (start + 1)]

theorem batch_loop_get (dir : String) : ∀ (k start i : Nat), i < k →
    ∀ r : RandS, ∃ r' : RandS,
      (batch_loop dir start k r).1[i]? = some
        (dir ++ "/"
          ++ (generate_nara_template none none none none none r').1.name
          ++ "-" ++ toString (start + i + 1) ++ ".nara",
         (generate_nara_template none none none none none r').1)
  | 0, _, i, h, _ => absurd h (by omega)
  | k + 1, start, 0, _, r => by
    exact ⟨r, by simp only [batch_loop, List.getElem?_cons_zero]⟩
  | k + 1, start, i + 1, h, r => by
    obtain ⟨r', hr'⟩ := batch_loop_get dir k (start + 1) i (by omega)
      (generate_nara_template none none none none none r).2
    refine ⟨r', ?_⟩
    simp only [batch_loop, List.getElem?_cons_succ]
    rw [show start + (i + 1) + 1 = start + 1 + i + 1 from by omega]
    exact hr'

/-- C8: in file-writing mode with `count` different from 1 or no name
given, `--name` is ignored entirely (the written files are identical to a
run with no name), and the i-th of the `count` files is named
`{output}/{fresh random template name}-{i}.nara` with 1-based index from a
template generated with `name=None`. -/
theorem C8_name_ignored (count : Nat) (name? : Option String) (output : String)
    (sb? ft? lb? : Option Bool) (lp? : Option String) (r : RandS)
    (h : count ≠ 1 ∨ name? = none) :
    main_files count name? output sb? ft? lb? lp? r
      = main_files count none output sb? ft? lb? lp? r
    ∧ (main_files count name? output sb? ft? lb? lp? r).1.length = count
    ∧ ∀ i, i < count → ∃ r' : RandS,
        (main_files count name? output sb? ft? lb? lp? r).1[i]? = some
          (output ++ "/"
            ++ (generate_nara_template none none none none none r').1.name
            ++ "-" ++ toString (i + 1) ++ ".nara",
           (generate_nara_template none none none none none r').1) := by
  have hcond : ¬ (count = 1 ∧ name_truthy name? = true) := by
    rcases h with h | h
    · intro hc; exact h hc.1
    · intro hc; rw [h] at hc; cases hc.2
  have hmain : main_files count name? output sb? ft? lb? lp? r
      = batch_loop output 0 count r := by
    unfold main_files
    rw [if_neg hcond]
    rfl
  have hmain2 : main_files count none output sb? ft? lb? lp? r
      = batch_loop output 0 count r := by
    unfold main_files
    rw [if_neg (by intro hc; cases hc.2)]
    rfl
  refine ⟨hmain.trans hmain2.symm, ?_, ?_⟩
  · rw [hmain]; exact batch_loop_length output count 0 r
  · intro i hi
    rw [hmain]
    obtain ⟨r', hr'⟩ := batch_loop_get output count 0 i hi r
    refine ⟨r', ?_⟩
    rw [show i + 1 = 0 + i + 1 from by omega]
    exact hr'

/-- Witness for C8 at `count = 2`, `--name "x"`. -/
theorem C8_name_ignored_witness :
    main_files 2 (some "x") "o" none none none none (fun _ => 0)
      = main_files 2 none "o" none none none none (fun _ => 0) :=
  (C8_name_ignored 2 (some "x") "o" none none none none (fun _ => 0)
    (Or.inl (by decide))).1

/-! ## Claim C4 -/

theorem pasteImg_width (b t : Img) (ox oy : Nat) :
    (pasteImg b t ox oy).width = b.width := rfl

theorem pasteImg_height (b t : Img) (ox oy : Nat) :
    (pasteImg b t ox oy).height = b.height := rfl

theorem foldl_img_width {α : Type} (g : Img → α → Img)
    (hg : ∀ s x, (g s x).width = s.width) :
    ∀ (l : List α) (s : Img), (l.foldl g s).width = s.width
  | [], _ => rfl
  | x :: xs, s => by
    rw [List.foldl_cons, foldl_img_width g hg xs (g s x), hg]

theorem foldl_img_height {α : Type} (g : Img → α → Img)
    (hg : ∀ s x, (g s x).height = s.height) :
    ∀ (l : List α) (s : Img), (l.foldl g s).height = s.height
  | [], _ => rfl
  | x :: xs, s => by
    rw [List.foldl_cons, foldl_img_height g hg xs (g s x), hg]

theorem create_spritesheet_width (files : String → Option Img)
    (fs : Nat × Nat) (fpd : Nat) :
    (create_spritesheet files fs fpd).width = fs.1 * fpd := by
  unfold create_spritesheet
  refine foldl_img_width
    (fun sh rowdir =>
      (List.range fpd).foldl
        (fun s col => pasteImg s (frameFor files fs.1 fs.2 rowdir.2)
          (col * fs.1) (rowdir.1 * fs.2)) sh) ?_ DIRECTIONS.enum _
  intro s x
  exact foldl_img_width
    (fun s col => pasteImg s (frameFor files fs.1 fs.2 x.2)
      (col * fs.1) (x.1 * fs.2)) (fun s' c => rfl) (List.range fpd) s

theorem create_spritesheet_height (files : String → Option Img)
    (fs : Nat × Nat) (fpd : Nat) :
    (create_spritesheet files fs fpd).height = fs.2 * 8 := by
  unfold create_spritesheet
  refine foldl_img_height
    (fun sh rowdir =>
      (List.range fpd).foldl
        (fun s col => pasteImg s (frameFor files fs.1 fs.2 rowdir.2)
          (col * fs.1) (rowdir.1 * fs.2)) sh) ?_ DIRECTIONS.enum _
  intro s x
  exact foldl_img_height
    (fun s col => pasteImg s (frameFor files fs.1 fs.2 x.2)
      (col * fs.1) (x.1 * fs.2)) (fun s' c => rfl) (List.range fpd) s

theorem pasteImg_transparent (s : Img) (w h ox oy : Nat)
    (hs : ∀ x y, s.px x y = transparentPx) (x y : Nat) :
    (pasteImg s (imageNew w h) ox oy).px x y = transparentPx := by
  unfold pasteImg imageNew
  dsimp
  split
  · rfl
  · exact hs x y

theorem foldl_img_transparent {α : Type} (g : Img → α → Img)
    (hg : ∀ s x, (∀ a b, s.px a b = transparentPx) →
      ∀ a b, (g s x).px a b = transparentPx) :
    ∀ (l : List α) (s : Img), (∀ a b, s.px a b = transparentPx) →
      ∀ a b, (l.foldl g s).px a b = transparentPx
  | [], _, hs => hs
  | x :: xs, s, hs => by
    rw [List.foldl_cons]
    exact foldl_img_transparent g hg xs (g s x) (hg s x hs)

/-- C4 -/
theorem C4_spritesheet (files : String → Option Img) :
    (walk_sheet files).width = 256 ∧ (walk_sheet files).height = 320
    ∧ (idle_sheet files).width = 256 ∧ (idle_sheet files).height = 320
    ∧ (∀ d, files d = none →
        frameFor files WALK_FRAME_SIZE.1 WALK_FRAME_SIZE.2 d = imageNew 32 40)
    ∧ ((∀ d, files d = none) → ∀ x y,
        (walk_sheet files).px x y = transparentPx
        ∧ (idle_sheet files).px x y = transparentPx) := by
  refine ⟨create_spritesheet_width files WALK_FRAME_SIZE WALK_FRAMES_PER_DIR,
    create_spritesheet_height files WALK_FRAME_SIZE WALK_FRAMES_PER_DIR,
    create_spritesheet_width files IDLE_FRAME_SIZE IDLE_FRAMES_PER_DIR,
    create_spritesheet_height files IDLE_FRAME_SIZE IDLE_FRAMES_PER_DIR,
    ?_, ?_⟩
  · intro d hd
    unfold frameFor
    rw [hd]
    rfl
  · intro hall x y
    have key : ∀ (fs : Nat × Nat) (fpd : Nat),
        ∀ a b, (create_spritesheet files fs fpd).px a b = transparentPx := by
      intro fs fpd
      unfold create_spritesheet
      apply foldl_img_transparent
      · intro s rd hs
        apply foldl_img_transparent
        · intro s' c hs' a' b'
          rw [show frameFor files fs.1 fs.2 rd.2 = imageNew fs.1 fs.2 from by
            unfold frameFor; rw [hall rd.2]]
          exact pasteImg_transparent s' fs.1 fs.2 _ _ hs' a' b'
        · exact hs
      · intro a b
        rfl
    exact ⟨key WALK_FRAME_SIZE WALK_FRAMES_PER_DIR x y,
      key IDLE_FRAME_SIZE IDLE_FRAMES_PER_DIR x y⟩

/-- Witness for C4 with every input file missing. -/
theorem C4_spritesheet_witness :
    (walk_sheet (fun _ => none)).width = 256
    ∧ (walk_sheet (fun _ => none)).height = 320 :=
  ⟨(C4_spritesheet (fun _ => none)).1, (C4_spritesheet (fun _ => none)).2.1⟩
